import Mathlib

/-!
# Verification of the PUJ-Route isochrone map generator (`app.py`)

A shallow embedding of the single-pass Streamlit script `src/app.py`:
file ingestion (lines 86-106), icon assignment (108-112), map centering
(117-121), threshold colors (123-129), and the per-route / per-stop /
per-threshold generation loop (135-205).  External libraries (pandas
parsing, OSMnx graph download, nearest-node search) are modelled as
inputs: a parsed file carries an `Option Table` (None = parse failure)
and an `Env` supplies the graph fetch and nearest-node lookups, each
`Option`-valued with `none` standing for the exception the script
catches.  The networkx `ego_graph` reachable-node set is embedded as an
executable shortest-distance computation (`egoNodes`).  Python `float`
values are rationals.
-/

namespace PUJRoute

/-- A cell value of a parsed table.  `num q` models a value that Python
`float()` converts to the rational `q`; `str s` models a non-numeric
value (e.g. the text `"abc"`) on which `float()` raises `ValueError`. -/
inductive Value where
  | num (q : ℚ)
  | str (s : String)
deriving DecidableEq, Repr

/-- Python `float(v)`: succeeds exactly on numeric values. -/
def pyFloat : Value → Option ℚ
  | .num q => some q
  | .str _ => none

/-- One row of a parsed table, as produced by `df.iterrows()` (app.py
line 144): `idx` is the row's index label `i` (position, for the default
range index of a freshly parsed file) and `cells` the column/value
pairs. -/
structure Row where
  idx : Nat
  cells : List (String × Value)
deriving DecidableEq, Repr

/-- Python `row.get(c)` / `row[c]`: the value under column `c`, if present. -/
def rowGet (r : Row) (c : String) : Option Value :=
  (r.cells.find? (fun p => p.1 = c)).map (·.2)

/-- Python `float(row[c])` (app.py lines 148-149): column lookup followed by
float conversion; `none` models the uncaught KeyError / ValueError. -/
def rowFloat (r : Row) (c : String) : Option ℚ :=
  (rowGet r c).bind pyFloat

/-- A parsed dataframe: column names plus rows. -/
structure Table where
  cols : List String
  rows : List Row
deriving DecidableEq, Repr

/-- An uploaded file: its name and the result of `read_file_to_df`
(app.py lines 65-77); `none` models a parse failure (the helper returns
`None` after `st.error`). -/
structure RawFile where
  name : String
  parseResult : Option Table
deriving DecidableEq, Repr

/-- Remove leading and trailing whitespace, as Python `str.strip()`. -/
def trimChars (cs : List Char) : List Char :=
  ((cs.dropWhile Char.isWhitespace).reverse.dropWhile Char.isWhitespace).reverse

/-- Column normalization (app.py lines 94-95): strip then lower-case.
The code first strips every column, then renames with
`c.strip().lower()`; the composition is strip-and-lower. -/
def normCol (c : String) : String :=
  String.mk ((trimChars c.data).map Char.toLower)

/-- The table `df_lower` (app.py line 95): the table with all column names (and
hence all row keys) stripped and lower-cased. -/
def renameLower (t : Table) : Table :=
  { cols := t.cols.map normCol
    rows := t.rows.map (fun r =>
      { idx := r.idx, cells := r.cells.map (fun p => (normCol p.1, p.2)) }) }

/-- The required-column check (app.py line 97):
`{"lat","lon"}.issubset(set(df_lower.columns))`. -/
def hasRequiredCols (t : Table) : Bool :=
  ("lat" ∈ t.cols) ∧ ("lon" ∈ t.cols)

/-- Index of the last occurrence of the character `c`. -/
def lastIdxOf (c : Char) : List Char → Option Nat
  | [] => none
  | x :: xs =>
    match lastIdxOf c xs with
    | some i => some (i + 1)
    | none => if x = c then some (0 : Nat) else none

/-- Python `pathlib.Path(name).stem` (app.py line 101): the name with its last
suffix removed, where a suffix requires a dot that is neither the first
nor the last character. -/
def stem (s : String) : String :=
  match lastIdxOf '.' s.data with
  | some i => if 0 < i ∧ i + 1 < s.data.length then String.mk (s.data.take i) else s
  | none => s

/-- Python `dict` assignment `d[k] = v` on an insertion-ordered
association list: an existing key keeps its position and gets the new
value, a new key is appended. -/
def dictInsert : List (String × Table) → String → Table → List (String × Table)
  | [], k, v => [(k, v)]
  | p :: rest, k, v =>
    if p.1 = k then (k, v) :: rest else p :: dictInsert rest k v

/-- The acceptance decision of the ingestion loop for one file: `some`
of the normalized table when the file parsed and has the required
columns, `none` when it is skipped (app.py lines 88-99). -/
def acceptedTable (f : RawFile) : Option Table :=
  f.parseResult.bind (fun df =>
    let dfl := renameLower df
    if hasRequiredCols dfl then some dfl else none)

/-- One iteration of the ingestion loop (app.py lines 87-102): a skipped
file leaves `routes` unchanged; an accepted file is stored under its
filename stem. -/
def ingestStep (acc : List (String × Table)) (f : RawFile) : List (String × Table) :=
  match acceptedTable f with
  | none => acc
  | some dfl => dictInsert acc (stem f.name) dfl

/-- The `routes` dict after the ingestion loop (app.py lines 86-102). -/
def ingest (files : List RawFile) : List (String × Table) :=
  files.foldl ingestStep []

/-- Lookup in the `routes` dict. -/
def lookupRoute (d : List (String × Table)) (k : String) : Option Table :=
  (d.find? (fun p => p.1 = k)).map (·.2)

/-! ## Configuration constants (app.py lines 17-28, 49-62) -/

/-- Constant `DEFAULT_WALKING_SPEED_MPS = 1.33` (app.py line 17). -/
def DEFAULT_WALKING_SPEED_MPS : ℚ := 133 / 100

/-- Constant `DEFAULT_TIME_RANGES = [5, 10]` (app.py line 18). -/
def DEFAULT_TIME_RANGES : List Nat := [5, 10]

/-- Constant `DEFAULT_DIST = 4000` (app.py line 19). -/
def DEFAULT_DIST : ℚ := 4000

/-- Constant `DEFAULT_ROUTE_ICONS` (app.py lines 24-28): the fixed icon URL
list. -/
def DEFAULT_ROUTE_ICONS : List String :=
  ["https://cdn-icons-png.flaticon.com/512/3448/3448316.png",
   "https://cdn-icons-png.flaticon.com/512/3448/3448339.png",
   "https://cdn-icons-png.flaticon.com/512/3448/3448316.png"]

/-- The session-scoped sidebar settings (app.py lines 49-62). -/
structure Config where
  walking_speed_mps : ℚ
  time_ranges : List Nat
  dist_m : ℚ
  simplify_polygons : Bool
  simplify_tolerance : ℚ
deriving DecidableEq, Repr

/-- The `if not time_ranges: time_ranges = DEFAULT_TIME_RANGES` default
(app.py lines 58-59). -/
def effectiveTimeRanges (cfg : Config) : List Nat :=
  if cfg.time_ranges = [] then DEFAULT_TIME_RANGES else cfg.time_ranges

/-- Minimum of a list, `none` on the empty list (Python `min` raises). -/
def listMin : List Nat → Option Nat
  | [] => none
  | x :: xs => some (xs.foldl Nat.min x)

/-- Maximum of a list, `none` on the empty list (Python `max` raises). -/
def listMax : List Nat → Option Nat
  | [] => none
  | x :: xs => some (xs.foldl Nat.max x)

/-- The initial `colors` dict comprehension (app.py line 123):
`{t: ("#fff700" if t == min(time_ranges) else "#1f77b4") for t in time_ranges}`. -/
def colorsInit (tr : List Nat) (t : Nat) : String :=
  if some t = listMin tr then "#fff700" else "#1f77b4"

/-- The final color mapping, including the reassignment loop for more
than two time ranges (app.py lines 125-129), which rewrites every
non-minimum threshold to the same second color. -/
def colors (tr : List Nat) (t : Nat) : String :=
  if 2 < tr.length ∧ t ∈ tr ∧ some t ≠ listMin tr then "#1f77b4"
  else colorsInit tr t

/-- The `route_icons` assignment (app.py lines 109-112): the i-th route
name, in insertion order, gets `icon_list[i % len(icon_list)]`. -/
def route_icons (names : List String) : List (String × String) :=
  names.enum.map (fun p =>
    (p.2, DEFAULT_ROUTE_ICONS.getD (p.1 % DEFAULT_ROUTE_ICONS.length) ""))

/-! ## The street network and the isochrone computation -/

/-- A node of the OSMnx walk graph, with its `x`/`y` coordinates. -/
structure GNode where
  id : Nat
  x : ℚ
  y : ℚ
deriving DecidableEq, Repr

/-- A directed edge of the OSMnx multigraph `(u, v, key, data)`; the
`length` and `time` attributes may be absent. -/
structure GEdge where
  u : Nat
  v : Nat
  key : Nat
  length : Option ℚ
  time : Option ℚ
deriving DecidableEq, Repr

/-- An OSMnx walk graph. -/
structure Graph where
  nodes : List GNode
  edges : List GEdge
deriving DecidableEq, Repr

/-- Coordinate access `G.nodes[n]["x"]`. -/
def xOf (G : Graph) (n : Nat) : ℚ :=
  ((G.nodes.find? (fun nd => nd.id = n)).map (·.x)).getD 0

/-- Coordinate access `G.nodes[n]["y"]`. -/
def yOf (G : Graph) (n : Nat) : ℚ :=
  ((G.nodes.find? (fun nd => nd.id = n)).map (·.y)).getD 0

/-- The edge-time assignment loop (app.py lines 170-172): every edge
carrying a `length` attribute gets `time = length / walking_speed_mps`;
edges without `length` are left untouched. -/
def assignTime (speed : ℚ) (e : GEdge) : GEdge :=
  match e.length with
  | some l => { e with time := some (l / speed) }
  | none => e

/-- The graph after the edge-time loop. -/
def assignTimes (speed : ℚ) (G : Graph) : Graph :=
  { nodes := G.nodes, edges := G.edges.map (assignTime speed) }

/-- The edge weight used by `nx.ego_graph(..., distance="time")`:
networkx reads `data.get("time", 1)`, so a missing attribute counts
as 1. -/
def edgeWeight (e : GEdge) : ℚ := e.time.getD 1

/-- Distance-table lookup for the shortest-distance iteration. -/
def distLookup (d : List (Nat × ℚ)) (n : Nat) : Option ℚ :=
  (d.find? (fun p => p.1 = n)).map (·.2)

/-- Distance-table update. -/
def distSet : List (Nat × ℚ) → Nat → ℚ → List (Nat × ℚ)
  | [], n, q => [(n, q)]
  | p :: rest, n, q =>
    if p.1 = n then (n, q) :: rest else p :: distSet rest n q

/-- Relax one edge: improve the tentative distance of its head. -/
def relaxEdge (d : List (Nat × ℚ)) (e : GEdge) : List (Nat × ℚ) :=
  match distLookup d e.u with
  | none => d
  | some du =>
    let nd := du + edgeWeight e
    match distLookup d e.v with
    | none => distSet d e.v nd
    | some dv => if nd < dv then distSet d e.v nd else d

/-- Relax every edge once. -/
def relaxRound (es : List GEdge) (d : List (Nat × ℚ)) : List (Nat × ℚ) :=
  es.foldl relaxEdge d

/-- Iterated relaxation. -/
def relaxIter : Nat → List GEdge → List (Nat × ℚ) → List (Nat × ℚ)
  | 0, _, d => d
  | k + 1, es, d => relaxIter k es (relaxRound es d)

/-- Time-weighted shortest distances from `src`, by `|V|` rounds of
edge relaxation (equal to Dijkstra's result for the nonnegative weights
arising from lengths and speeds). -/
def shortestDists (G : Graph) (src : Nat) : List (Nat × ℚ) :=
  relaxIter G.nodes.length G.edges [(src, 0)]

/-- The node set of `nx.ego_graph(G, src, radius, distance="time")`
(app.py line 184): the nodes of `G` whose time-weighted shortest
distance from `src` is at most `radius`, in `G`'s node order (networkx
subgraphs preserve the parent graph's node order). -/
def egoNodes (G : Graph) (src : Nat) (radius : ℚ) : List Nat :=
  (G.nodes.map (·.id)).filter (fun n =>
    match distLookup (shortestDists G src) n with
    | some dq => dq ≤ radius
    | none => false)

/-! ## Per-stop processing (app.py lines 144-205) -/

/-- The external services the script calls per stop, modelled as
inputs.  `fetchGraph lat lon dist` is `ox.graph_from_point((lat, lon),
dist=dist, network_type='walk')` and `nearestNode G lon lat` is
`ox.distance.nearest_nodes(G, lon, lat)`; `none` models the exception
that the surrounding `try/except` catches (app.py lines 164-179). -/
structure Env where
  fetchGraph : ℚ → ℚ → ℚ → Option Graph
  nearestNode : Graph → ℚ → ℚ → Option Nat

/-- The isochrone polygon built at app.py line 188:
`MultiPoint(pts).convex_hull.buffer(0.002)`, optionally simplified with
the configured tolerance (lines 189-191).  The shapely geometry
operations are external; the record keeps their inputs. -/
structure Poly where
  pts : List (ℚ × ℚ)
  bufferRadius : ℚ
  simplifiedTol : Option ℚ
deriving DecidableEq, Repr

/-- Build the polygon record for the hull point set `pts`. -/
def mkPoly (simplify : Bool) (tol : ℚ) (pts : List (ℚ × ℚ)) : Poly :=
  { pts := pts
    bufferRadius := 2 / 1000
    simplifiedTol := if simplify then some tol else none }

/-- What the script produces for one stop: the marker (always placed as
soon as lat/lon convert), the popup fields, the per-threshold polygons
of the stop group, and the warning emitted when the graph fetch or the
nearest-node lookup failed. -/
structure StopOutput where
  marker : ℚ × ℚ
  stopName : Value
  stopNumber : Value
  polygons : List (Nat × Poly)
  warning : Option String
deriving DecidableEq, Repr

/-- The point list of one threshold (app.py lines 183-185): with
`sec = t * 60`, the coordinates of the nodes of
`nx.ego_graph(G, center_node, radius=sec, distance="time")`. -/
def thresholdPts (G : Graph) (center_node : Nat) (t : Nat) : List (ℚ × ℚ) :=
  (egoNodes G center_node ((t : ℚ) * 60)).map (fun n => (xOf G n, yOf G n))

/-- The time-range loop (app.py lines 182-202): for each `t`, take the
ego-graph point set, skip the threshold when fewer than 3 points,
otherwise emit the hull polygon. -/
def isoPolys (cfg : Config) (G : Graph) (center_node : Nat) :
    List (Nat × Poly) :=
  cfg.time_ranges.filterMap (fun (t : Nat) =>
    if (thresholdPts G center_node t).length < 3 then none
    else some (t, mkPoly cfg.simplify_polygons cfg.simplify_tolerance
      (thresholdPts G center_node t)))

/-- Default stop name: `row.get` of the name column with synthesized fallback (app.py line 146). -/
def stopNameOf (r : Row) : Value :=
  (rowGet r "name").getD (.str ("Stop " ++ toString (r.idx + 1)))

/-- Default stop number: `row.get` of the stop-number column with fallback `i+1` (app.py line 147). -/
def stopNumberOf (r : Row) : Value :=
  (rowGet r "stop_number").getD (.num ((r.idx : ℚ) + 1))

/-- The per-stop result when the graph fetch or nearest-node lookup
failed: marker placed, warning shown, no polygons (app.py lines 161,
166-168, 177-179). -/
def skipOutput (r : Row) (lat lon : ℚ) (w : String) : StopOutput :=
  { marker := (lat, lon), stopName := stopNameOf r,
    stopNumber := stopNumberOf r, polygons := [], warning := some w }

/-- The per-stop result on the full path: marker placed and the
time-range loop's polygons attached to the stop group. -/
def fullOutput (cfg : Config) (r : Row) (lat lon : ℚ) (g2 : Graph)
    (center_node : Nat) : StopOutput :=
  { marker := (lat, lon), stopName := stopNameOf r,
    stopNumber := stopNumberOf r,
    polygons := isoPolys cfg g2 center_node, warning := none }

/-- One iteration of the stop loop (app.py lines 144-205).  The
unguarded `float(row['lat'])` / `float(row['lon'])` conversions (lines
148-149) are the only fatal path: `.error` models the uncaught
exception.  A failed graph fetch or nearest-node lookup warns and
continues with the marker already placed and no polygons. -/
def processStop (env : Env) (cfg : Config) (route_name : String)
    (r : Row) : Except String StopOutput :=
  match rowFloat r "lat" with
  | none => .error "ValueError: could not convert row lat to float"
  | some lat =>
    match rowFloat r "lon" with
    | none => .error "ValueError: could not convert row lon to float"
    | some lon =>
      match env.fetchGraph lat lon cfg.dist_m with
      | none =>
        .ok (skipOutput r lat lon
          ("OSMnx graph failed for stop of " ++ route_name))
      | some g =>
        let g2 := assignTimes cfg.walking_speed_mps g
        match env.nearestNode g2 lon lat with
        | none =>
          .ok (skipOutput r lat lon
            ("Nearest node failed for stop of " ++ route_name))
        | some center_node =>
          .ok (fullOutput cfg r lat lon g2 center_node)

/-- The stop loop over one route's rows; the first uncaught exception
aborts everything. -/
def processRows (env : Env) (cfg : Config) (route_name : String) :
    List Row → Except String (List StopOutput)
  | [] => .ok []
  | r :: rs =>
    match processStop env cfg route_name r with
    | .error e => .error e
    | .ok o =>
      match processRows env cfg route_name rs with
      | .error e => .error e
      | .ok os => .ok (o :: os)

/-- The outer route loop (app.py line 135). -/
def runRoutes (env : Env) (cfg : Config) :
    List (String × Table) → Except String (List (String × List StopOutput))
  | [] => .ok []
  | (rn, df) :: rest =>
    match processRows env cfg rn df.rows with
    | .error e => .error e
    | .ok os =>
      match runRoutes env cfg rest with
      | .error e => .error e
      | .ok others => .ok ((rn, os) :: others)

/-- Map centering (app.py lines 117-121): unconditionally
`float(first_route_df['lat'].iloc[0])` / `...['lon'].iloc[0]`.  `.iloc[0]`
on an empty column raises IndexError; `float` on a non-numeric value
raises ValueError; both are uncaught. -/
def sessionCenter (df : Table) : Except String (ℚ × ℚ) :=
  match df.rows with
  | [] => .error "IndexError: iloc[0] on empty first route"
  | r :: _ =>
    match rowFloat r "lat" with
    | none => .error "ValueError: could not convert center lat to float"
    | some a =>
      match rowFloat r "lon" with
      | none => .error "ValueError: could not convert center lon to float"
      | some b => .ok (a, b)

/-- The composed map artifact of one successful run. -/
structure SessionOutput where
  center : ℚ × ℚ
  icons : List (String × String)
  routes : List (String × List StopOutput)
  legendMinT : Nat
  legendMaxT : Nat
deriving DecidableEq, Repr

/-- Outcome of one script run. -/
inductive SessionResult where
  | ok (out : SessionOutput)
  | noRoutes
  | aborted (msg : String)
deriving DecidableEq, Repr

/-- One full run of the script body after upload (app.py lines 86-220):
ingest the files, stop with "No valid routes uploaded." when none
survive, assign icons, center the map on the first route's first row,
run the generation loops, and record the legend's min/max thresholds.
Any uncaught exception aborts the session. -/
def runSession (env : Env) (cfg : Config) (files : List RawFile) :
    SessionResult :=
  let cfg2 := { cfg with time_ranges := effectiveTimeRanges cfg }
  match ingest files with
  | [] => .noRoutes
  | (rn0, df0) :: rest =>
    match sessionCenter df0 with
    | .error e => .aborted e
    | .ok ctr =>
      match runRoutes env cfg2 ((rn0, df0) :: rest) with
      | .error e => .aborted e
      | .ok outs =>
        .ok { center := ctr
              icons := route_icons (((rn0, df0) :: rest).map (·.1))
              routes := outs
              legendMinT := (listMin cfg2.time_ranges).getD 0
              legendMaxT := (listMax cfg2.time_ranges).getD 0 }

/-! ## Specification-side characterizations and concrete inputs -/

/-- The normalized table of the last file in the list that is accepted
and whose filename stem is `k` — the specification-side description of
which upload ends up stored under key `k`. -/
def lastAcceptedWithStem (k : String) : List RawFile → Option Table
  | [] => none
  | f :: fs =>
    match lastAcceptedWithStem k fs with
    | some t => some t
    | none =>
      match acceptedTable f with
      | some t => if stem f.name = k then some t else none
      | none => none

/-- An environment in which every graph fetch and every nearest-node
lookup raises: the script's per-stop `except` branches always fire. -/
def failEnv : Env :=
  { fetchGraph := fun _ _ _ => none, nearestNode := fun _ _ _ => none }

/-- A graph with no nodes and no edges. -/
def emptyGraph : Graph := { nodes := [], edges := [] }

/-- An environment whose graph fetch returns the empty graph and whose
nearest-node lookup returns node `7`. -/
def emptyGraphEnv : Env :=
  { fetchGraph := fun _ _ _ => some emptyGraph
    nearestNode := fun _ _ _ => some (7 : Nat) }

/-- A three-node path graph (node ids 1, 2, 3) with unit-length edges
and coordinates spread out, used to exercise the isochrone loop. -/
def pathGraph : Graph :=
  { nodes := [⟨1, 0, 0⟩, ⟨2, 1, 0⟩, ⟨3, 0, 1⟩]
    edges := [⟨1, 2, 0, some 1, none⟩, ⟨2, 3, 0, some 1, none⟩] }

/-- An environment serving `pathGraph` with nearest node `1`. -/
def pathGraphEnv : Env :=
  { fetchGraph := fun _ _ _ => some pathGraph
    nearestNode := fun _ _ _ => some (1 : Nat) }

/-- The default sidebar configuration (app.py lines 17-19, 61-62):
walking speed 1.33 m/s, thresholds [5, 10] minutes, 4000 m extent, no
simplification, tolerance 0.0008. -/
def defaultConfig : Config :=
  { walking_speed_mps := DEFAULT_WALKING_SPEED_MPS
    time_ranges := DEFAULT_TIME_RANGES
    dist_m := DEFAULT_DIST
    simplify_polygons := false
    simplify_tolerance := 8 / 10000 }

/-- A well-formed stop row at index 0: lat 1, lon 2, no optional
columns. -/
def goodRow : Row := { idx := 0, cells := [("lat", .num 1), ("lon", .num 2)] }

/-- A row whose `lat` cell is the non-numeric text `"abc"`: Python
`float` raises on it. -/
def badLatRow : Row :=
  { idx := 1, cells := [("lat", .str "abc"), ("lon", .num 3)] }

/-- An upload whose second row has the malformed `lat` value. -/
def badLatFile : RawFile :=
  { name := "r.csv"
    parseResult := some { cols := ["lat", "lon"], rows := [goodRow, badLatRow] } }

/-- An upload that parses but lacks the required columns. -/
def noLatFile : RawFile :=
  { name := "bad.csv"
    parseResult := some { cols := ["latitude", "lon"], rows := [] } }

/-- An upload with oddly-cased, padded required column names. -/
def casedFile : RawFile :=
  { name := "cased.csv"
    parseResult := some
      { cols := ["  LAT ", "Lon"]
        rows := [{ idx := 0, cells := [("  LAT ", .num 1), ("Lon", .num 2)] }] } }

/-- An upload with the required columns and a single valid row. -/
def goodFile : RawFile :=
  { name := "ruta.csv"
    parseResult := some { cols := ["lat", "lon"], rows := [goodRow] } }

/-- A second upload, also named `ruta` up to its extension, with one
valid row at different coordinates. -/
def goodFile2 : RawFile :=
  { name := "ruta.xlsx"
    parseResult := some
      { cols := ["lat", "lon"]
        rows := [{ idx := 0, cells := [("lat", .num 5), ("lon", .num 6)] }] } }

/-- An upload whose table has the required columns but no rows. -/
def emptyRowsFile : RawFile :=
  { name := "vacio.csv"
    parseResult := some { cols := ["lat", "lon"], rows := [] } }

/-! ## Theorems -/

/-- C2: for every non-empty threshold list, the color map built at
app.py lines 123-129 gives the minimum threshold the distinguished
color `#fff700` and every other member of the list the shared second
color `#1f77b4`, whatever the size of the list. -/
theorem C2_min_threshold_distinguished_color (tr : List Nat) (m : Nat)
    (hm : listMin tr = some m) :
    colors tr m = "#fff700" ∧
      ∀ t ∈ tr, t ≠ m → colors tr t = "#1f77b4" := by
  constructor
  · simp [colors, colorsInit, hm]
  · intro t ht hne
    simp [colors, colorsInit, hm, ht, hne]

/-- Witness for C2 on the three-element threshold set {10, 5, 15}. -/
theorem C2_witness :
    colors [10, 5, 15] 5 = "#fff700" ∧
      ∀ t ∈ [10, 5, 15], t ≠ 5 → colors [10, 5, 15] t = "#1f77b4" :=
  C2_min_threshold_distinguished_color [10, 5, 15] 5 (by decide)

/-- C4: a parsed file whose stripped, lower-cased columns do not contain
both `lat` and `lon` contributes nothing to the route set — ingestion of
the remaining files is unchanged — while any parsed file that does have
them (in any casing or padding, since the check runs on normalized
columns) is accepted. -/
theorem C4_missing_columns_file_skipped (pre post : List RawFile)
    (f : RawFile) (df : Table) (hparse : f.parseResult = some df)
    (hmiss : hasRequiredCols (renameLower df) = false) :
    ingest (pre ++ f :: post) = ingest (pre ++ post) ∧
      ∀ g dg, g.parseResult = some dg →
        hasRequiredCols (renameLower dg) = true →
        acceptedTable g = some (renameLower dg) := by
  constructor
  · have hstep : ∀ acc, ingestStep acc f = acc := by
      intro acc
      simp [ingestStep, acceptedTable, hparse, hmiss]
    simp [ingest, List.foldl_append, hstep]
  · intro g dg hg hcols
    simp [acceptedTable, hg, hcols]

/-- Witness for C4: `noLatFile` (columns `latitude`, `lon`) is dropped
and `casedFile` (columns `"  LAT "`, `"Lon"`) is accepted. -/
theorem C4_witness :
    ingest ([casedFile] ++ noLatFile :: []) = ingest ([casedFile] ++ []) ∧
      ∀ g dg, g.parseResult = some dg →
        hasRequiredCols (renameLower dg) = true →
        acceptedTable g = some (renameLower dg) :=
  C4_missing_columns_file_skipped [casedFile] [] noLatFile
    { cols := ["latitude", "lon"], rows := [] } (by decide) (by decide)

/-- C6: icon assignment is round-robin by position: the i-th entry of
the `route_icons` association (app.py lines 109-112) pairs the i-th
route name with the element at index `i mod L` of the fixed icon list
of length `L`. -/
theorem C6_round_robin_icons (names : List String) (i : Nat) :
    (route_icons names)[i]? = names[i]?.map
      (fun n => (n, DEFAULT_ROUTE_ICONS.getD
        (i % DEFAULT_ROUTE_ICONS.length) "")) := by
  simp [route_icons, List.getElem?_map, List.getElem?_enum, Option.map_map]
  rfl

/-- When the row's coordinates convert and the graph fetch raises, the
stop loop warns and yields the marker-only output. -/
theorem processStop_eq_fetchFail (env : Env) (cfg : Config) (rn : String)
    (r : Row) (lat lon : ℚ)
    (hlat : rowFloat r "lat" = some lat)
    (hlon : rowFloat r "lon" = some lon)
    (hG : env.fetchGraph lat lon cfg.dist_m = none) :
    processStop env cfg rn r =
      .ok (skipOutput r lat lon ("OSMnx graph failed for stop of " ++ rn)) := by
  simp [processStop, hlat, hlon, hG]

/-- When the graph fetch succeeds but the nearest-node lookup raises,
the stop loop warns and yields the marker-only output. -/
theorem processStop_eq_nearFail (env : Env) (cfg : Config) (rn : String)
    (r : Row) (lat lon : ℚ) (g : Graph)
    (hlat : rowFloat r "lat" = some lat)
    (hlon : rowFloat r "lon" = some lon)
    (hG : env.fetchGraph lat lon cfg.dist_m = some g)
    (hN : env.nearestNode (assignTimes cfg.walking_speed_mps g) lon lat = none) :
    processStop env cfg rn r =
      .ok (skipOutput r lat lon ("Nearest node failed for stop of " ++ rn)) := by
  simp [processStop, hlat, hlon, hG, hN]

/-- On the full path the stop loop yields the marker plus the time-range
loop's polygons. -/
theorem processStop_eq_full (env : Env) (cfg : Config) (rn : String)
    (r : Row) (lat lon : ℚ) (g : Graph) (c : Nat)
    (hlat : rowFloat r "lat" = some lat)
    (hlon : rowFloat r "lon" = some lon)
    (hG : env.fetchGraph lat lon cfg.dist_m = some g)
    (hN : env.nearestNode (assignTimes cfg.walking_speed_mps g) lon lat = some c) :
    processStop env cfg rn r =
      .ok (fullOutput cfg r lat lon (assignTimes cfg.walking_speed_mps g) c) := by
  simp [processStop, hlat, hlon, hG, hN]

/-- The popup-field defaults, characterized case by case. -/
theorem nameNumber_conditionals (r : Row) :
    (rowGet r "name" = none →
      stopNameOf r = .str ("Stop " ++ toString (r.idx + 1))) ∧
    (∀ v, rowGet r "name" = some v → stopNameOf r = v) ∧
    (rowGet r "stop_number" = none →
      stopNumberOf r = .num ((r.idx : ℚ) + 1)) ∧
    (∀ v, rowGet r "stop_number" = some v → stopNumberOf r = v) := by
  refine ⟨?_, ?_, ?_, ?_⟩ <;> intros <;> simp_all [stopNameOf, stopNumberOf]

/-- C8: when the row's `name` / `stop_number` columns are absent the
stop's popup fields default to the synthesized `"Stop i+1"` and `i+1`
derived from the row index, and when present their values are used
(app.py lines 146-147). -/
theorem C8_name_number_defaults (env : Env) (cfg : Config) (rn : String)
    (r : Row) (lat lon : ℚ)
    (hlat : rowFloat r "lat" = some lat)
    (hlon : rowFloat r "lon" = some lon) :
    ∃ o, processStop env cfg rn r = .ok o ∧
      (rowGet r "name" = none →
        o.stopName = .str ("Stop " ++ toString (r.idx + 1))) ∧
      (∀ v, rowGet r "name" = some v → o.stopName = v) ∧
      (rowGet r "stop_number" = none →
        o.stopNumber = .num ((r.idx : ℚ) + 1)) ∧
      (∀ v, rowGet r "stop_number" = some v → o.stopNumber = v) := by
  obtain ⟨h1, h2, h3, h4⟩ := nameNumber_conditionals r
  rcases hG : env.fetchGraph lat lon cfg.dist_m with _ | g
  · exact ⟨_, processStop_eq_fetchFail env cfg rn r lat lon hlat hlon hG,
      h1, h2, h3, h4⟩
  · rcases hN : env.nearestNode (assignTimes cfg.walking_speed_mps g) lon lat
      with _ | c
    · exact ⟨_, processStop_eq_nearFail env cfg rn r lat lon g hlat hlon hG hN,
        h1, h2, h3, h4⟩
    · exact ⟨_, processStop_eq_full env cfg rn r lat lon g c hlat hlon hG hN,
        h1, h2, h3, h4⟩

/-- The number of hull points of a threshold equals the number of nodes
of its ego graph. -/
theorem thresholdPts_length (G : Graph) (c t : Nat) :
    (thresholdPts G c t).length = (egoNodes G c ((t : ℚ) * 60)).length := by
  simp [thresholdPts]

/-- A polygon emitted by the time-range loop carries the threshold it
was built for, and that threshold's ego graph has at least 3 nodes. -/
theorem isoPolys_mem (cfg : Config) (G : Graph) (c : Nat)
    (p : Nat × Poly) (hp : p ∈ isoPolys cfg G c) :
    p.1 ∈ cfg.time_ranges ∧
      3 ≤ (egoNodes G c ((p.1 : ℚ) * 60)).length := by
  unfold isoPolys at hp
  obtain ⟨t, ht, hf⟩ := List.mem_filterMap.mp hp
  by_cases hlen : (thresholdPts G c t).length < 3
  · rw [if_pos hlen] at hf
    exact absurd hf (by simp)
  · rw [if_neg hlen] at hf
    obtain rfl := (Option.some.injEq _ _).mp hf
    rw [thresholdPts_length] at hlen
    exact ⟨ht, show 3 ≤ (egoNodes G c ((t : ℚ) * 60)).length by omega⟩

/-- A threshold of the configured list whose ego graph has at least 3
nodes does produce a polygon. -/
theorem isoPolys_mem_of_large (cfg : Config) (G : Graph) (c t : Nat)
    (ht : t ∈ cfg.time_ranges)
    (hlen : 3 ≤ (egoNodes G c ((t : ℚ) * 60)).length) :
    (t, mkPoly cfg.simplify_polygons cfg.simplify_tolerance
      (thresholdPts G c t)) ∈ isoPolys cfg G c := by
  unfold isoPolys
  refine List.mem_filterMap.mpr ⟨t, ht, ?_⟩
  rw [if_neg (by rw [thresholdPts_length]; omega)]

/-- C3: for every stop and threshold, if the time-bounded ego graph
around the stop's nearest node has fewer than 3 nodes, no polygon is
emitted for that stop/threshold pair, and the stop's marker is placed
regardless (app.py lines 161, 182-187). -/
theorem C3_small_ego_no_polygon_marker_stays (env : Env) (cfg : Config)
    (rn : String) (r : Row) (lat lon : ℚ) (t : Nat)
    (hlat : rowFloat r "lat" = some lat)
    (hlon : rowFloat r "lon" = some lon)
    (hsmall : ∀ g c, env.fetchGraph lat lon cfg.dist_m = some g →
      env.nearestNode (assignTimes cfg.walking_speed_mps g) lon lat = some c →
      (egoNodes (assignTimes cfg.walking_speed_mps g) c ((t : ℚ) * 60)).length < 3) :
    ∃ o, processStop env cfg rn r = .ok o ∧ o.marker = (lat, lon) ∧
      ∀ p ∈ o.polygons, p.1 ≠ t := by
  rcases hG : env.fetchGraph lat lon cfg.dist_m with _ | g
  · exact ⟨_, processStop_eq_fetchFail env cfg rn r lat lon hlat hlon hG,
      rfl, by simp [skipOutput]⟩
  · rcases hN : env.nearestNode (assignTimes cfg.walking_speed_mps g) lon lat
      with _ | c
    · exact ⟨_, processStop_eq_nearFail env cfg rn r lat lon g hlat hlon hG hN,
        rfl, by simp [skipOutput]⟩
    · refine ⟨_, processStop_eq_full env cfg rn r lat lon g c hlat hlon hG hN,
        rfl, ?_⟩
      intro p hp hpt
      simp only [fullOutput] at hp
      have h2 := (isoPolys_mem cfg _ c p hp).2
      rw [hpt] at h2
      have h3 := hsmall g c hG hN
      omega

/-- Witness for C3: the environment serves an empty graph, so every ego
graph has 0 < 3 nodes; the marker is still produced. -/
theorem C3_witness :
    ∃ o, processStop emptyGraphEnv defaultConfig "ruta" goodRow = .ok o ∧
      o.marker = (1, 2) ∧ ∀ p ∈ o.polygons, p.1 ≠ 5 :=
  C3_small_ego_no_polygon_marker_stays emptyGraphEnv defaultConfig "ruta"
    goodRow 1 2 5 (by decide) (by decide)
    (by
      intro g c h1 h2
      injection h1 with h1
      injection h2 with h2
      subst h1
      subst h2
      decide)

/-- C5: a stop whose graph fetch raises, or whose nearest-node lookup
raises, degrades to a warning and an output without isochrones, and the
stop loop continues with the remaining stops instead of aborting
(app.py lines 164-179). -/
theorem C5_fetch_failure_skips_stop_and_continues (env : Env)
    (cfg : Config) (rn : String) (r : Row) (rs : List Row) (lat lon : ℚ)
    (hlat : rowFloat r "lat" = some lat)
    (hlon : rowFloat r "lon" = some lon)
    (hfail : env.fetchGraph lat lon cfg.dist_m = none ∨
      ∃ g, env.fetchGraph lat lon cfg.dist_m = some g ∧
        env.nearestNode (assignTimes cfg.walking_speed_mps g) lon lat = none) :
    ∃ o, processStop env cfg rn r = .ok o ∧ o.polygons = [] ∧
      o.warning.isSome = true ∧
      ∀ os, processRows env cfg rn rs = .ok os →
        processRows env cfg rn (r :: rs) = .ok (o :: os) := by
  have hstep : ∃ o, processStop env cfg rn r = .ok o ∧ o.polygons = [] ∧
      o.warning.isSome = true := by
    rcases hfail with hG | ⟨g, hG, hN⟩
    · exact ⟨_, processStop_eq_fetchFail env cfg rn r lat lon hlat hlon hG,
        rfl, rfl⟩
    · exact ⟨_, processStop_eq_nearFail env cfg rn r lat lon g hlat hlon hG hN,
        rfl, rfl⟩
  obtain ⟨o, ho, hpoly, hwarn⟩ := hstep
  refine ⟨o, ho, hpoly, hwarn, ?_⟩
  intro os hos
  simp [processRows, ho, hos]

/-- Witness for C5 in the always-failing environment. -/
theorem C5_witness :
    ∃ o, processStop failEnv defaultConfig "ruta" goodRow = .ok o ∧
      o.polygons = [] ∧ o.warning.isSome = true ∧
      ∀ os, processRows failEnv defaultConfig "ruta" [badLatRow] = .ok os →
        processRows failEnv defaultConfig "ruta" (goodRow :: [badLatRow]) =
          .ok (o :: os) :=
  C5_fetch_failure_skips_stop_and_continues failEnv defaultConfig "ruta"
    goodRow [badLatRow] 1 2 (by decide) (by decide) (Or.inl rfl)

/-- C7: on the full per-stop path, every fetched edge that carries a
`length` attribute is given the traversal-time weight
`length / walking_speed_mps` before the radius search (app.py lines
170-172), and the polygon for threshold `t` exists precisely when the
reachable-node set for the budget of exactly `t * 60` seconds has at
least 3 nodes (lines 182-187). -/
theorem C7_edge_times_and_time_budget (env : Env) (cfg : Config)
    (rn : String) (r : Row) (lat lon : ℚ) (g : Graph) (c : Nat)
    (hlat : rowFloat r "lat" = some lat)
    (hlon : rowFloat r "lon" = some lon)
    (hG : env.fetchGraph lat lon cfg.dist_m = some g)
    (hN : env.nearestNode (assignTimes cfg.walking_speed_mps g) lon lat = some c) :
    (∀ e ∈ g.edges, ∀ l, e.length = some l →
      { e with time := some (l / cfg.walking_speed_mps) } ∈
        (assignTimes cfg.walking_speed_mps g).edges) ∧
    ∃ o, processStop env cfg rn r = .ok o ∧
      ∀ t ∈ cfg.time_ranges,
        ((∃ p ∈ o.polygons, p.1 = t) ↔
          3 ≤ (egoNodes (assignTimes cfg.walking_speed_mps g) c
            ((t : ℚ) * 60)).length) := by
  constructor
  · intro e he l hl
    refine List.mem_map.mpr ⟨e, he, ?_⟩
    simp [assignTime, hl]
  · refine ⟨_, processStop_eq_full env cfg rn r lat lon g c hlat hlon hG hN, ?_⟩
    intro t ht
    constructor
    · rintro ⟨p, hp, rfl⟩
      simp only [fullOutput] at hp
      exact (isoPolys_mem cfg _ c p hp).2
    · intro hlen
      refine ⟨(t, mkPoly cfg.simplify_polygons cfg.simplify_tolerance
        (thresholdPts (assignTimes cfg.walking_speed_mps g) c t)), ?_, rfl⟩
      simp only [fullOutput]
      exact isoPolys_mem_of_large cfg _ c t ht hlen

/-- Witness for C7 on the three-node path graph. -/
theorem C7_witness :
    (∀ e ∈ pathGraph.edges, ∀ l, e.length = some l →
      { e with time := some (l / defaultConfig.walking_speed_mps) } ∈
        (assignTimes defaultConfig.walking_speed_mps pathGraph).edges) ∧
    ∃ o, processStop pathGraphEnv defaultConfig "ruta" goodRow = .ok o ∧
      ∀ t ∈ defaultConfig.time_ranges,
        ((∃ p ∈ o.polygons, p.1 = t) ↔
          3 ≤ (egoNodes (assignTimes defaultConfig.walking_speed_mps pathGraph)
            1 ((t : ℚ) * 60)).length) :=
  C7_edge_times_and_time_budget pathGraphEnv defaultConfig "ruta" goodRow
    1 2 pathGraph 1 (by decide) (by decide) rfl rfl

/-- Looking up key `k` after a Python-style dict assignment of `v`
under `k2`: the new value when `k = k2`, the old table otherwise. -/
theorem lookupRoute_dictInsert (d : List (String × Table)) (k2 k : String)
    (v : Table) :
    lookupRoute (dictInsert d k2 v) k =
      if k = k2 then some v else lookupRoute d k := by
  induction d with
  | nil =>
    by_cases h : k = k2
    · subst h
      simp [dictInsert, lookupRoute, List.find?]
    · simp [dictInsert, lookupRoute, List.find?, h, Ne.symm h]
  | cons p rest ih =>
    by_cases hp : p.1 = k2
    · rw [show dictInsert (p :: rest) k2 v = (k2, v) :: rest from by
        simp [dictInsert, hp]]
      by_cases h : k = k2
      · subst h
        simp [lookupRoute, List.find?]
      · simp [lookupRoute, List.find?, h, Ne.symm h, hp]
    · rw [show dictInsert (p :: rest) k2 v = p :: dictInsert rest k2 v from by
        simp [dictInsert, hp]]
      by_cases hk : p.1 = k
      · have hkk2 : ¬(k = k2) := fun h => hp (hk.trans h)
        simp [lookupRoute, List.find?, hk, hkk2]
      · have hL : lookupRoute (p :: dictInsert rest k2 v) k =
            lookupRoute (dictInsert rest k2 v) k := by
          simp [lookupRoute, List.find?, hk]
        have hR : lookupRoute (p :: rest) k = lookupRoute rest k := by
          simp [lookupRoute, List.find?, hk]
        rw [hL, hR, ih]


/-- Invariant of the ingestion fold: the table finally stored under `k`
is the last accepted contribution with stem `k`, or whatever the
accumulator already held. -/
theorem ingest_foldl_lookup (files : List RawFile)
    (acc : List (String × Table)) (k : String) :
    lookupRoute (files.foldl ingestStep acc) k =
      match lastAcceptedWithStem k files with
      | some t => some t
      | none => lookupRoute acc k := by
  induction files generalizing acc with
  | nil => simp [lastAcceptedWithStem]
  | cons f fs ih =>
    rw [List.foldl_cons, ih]
    cases hfs : lastAcceptedWithStem k fs with
    | some t => simp [lastAcceptedWithStem, hfs]
    | none =>
      simp only [lastAcceptedWithStem, hfs]
      cases hacc : acceptedTable f with
      | none => simp [ingestStep, hacc]
      | some t =>
        simp only [ingestStep, hacc]
        rw [lookupRoute_dictInsert]
        by_cases hk : k = stem f.name
        · subst hk
          simp
        · simp [hk, Ne.symm hk]

/-- C9: routes are keyed by filename stem, so the table stored under a
stem is the one of the LAST accepted upload with that stem (app.py
lines 100-102); concretely, two accepted files both named `ruta` up to
their extension leave one route holding the second file's rows, so the
route count (1) is strictly below the accepted-file count (2). -/
theorem C9_same_stem_last_file_wins :
    (∀ files k, lookupRoute (ingest files) k = lastAcceptedWithStem k files) ∧
    lookupRoute (ingest [goodFile, goodFile2]) "ruta" =
      goodFile2.parseResult.map renameLower ∧
    (ingest [goodFile, goodFile2]).length = 1 ∧
    [goodFile, goodFile2].countP (fun f => (acceptedTable f).isSome) = 2 := by
  refine ⟨?_, by decide, by decide, by decide⟩
  intro files k
  unfold ingest
  rw [ingest_foldl_lookup]
  cases hl : lastAcceptedWithStem k files <;> simp [lookupRoute]

/-- C10: the map center is read unconditionally from the first row of
the first accepted route (app.py lines 117-121); when that route's
table has zero rows the `.iloc[0]` access raises an uncaught exception
and the whole session aborts, even though the file passed the
required-column check. -/
theorem C10_empty_first_route_aborts (env : Env) (cfg : Config)
    (files : List RawFile) (rn0 : String) (df0 : Table)
    (rest : List (String × Table))
    (hing : ingest files = (rn0, df0) :: rest) (hrows : df0.rows = []) :
    runSession env cfg files =
      .aborted "IndexError: iloc[0] on empty first route" := by
  simp [runSession, hing, sessionCenter, hrows]

/-- Witness for C10: a single upload with `lat`/`lon` columns and no
rows aborts the session. -/
theorem C10_witness :
    runSession failEnv defaultConfig [emptyRowsFile] =
      .aborted "IndexError: iloc[0] on empty first route" :=
  C10_empty_first_route_aborts failEnv defaultConfig [emptyRowsFile]
    "vacio" { cols := ["lat", "lon"], rows := [] } [] (by decide) rfl

/-- When both coordinates of a row convert to float, the stop loop
cannot abort on that row. -/
theorem processStop_ok_of_parses (env : Env) (cfg : Config) (rn : String)
    (r : Row) (hlat : (rowFloat r "lat").isSome = true)
    (hlon : (rowFloat r "lon").isSome = true) :
    ∃ o, processStop env cfg rn r = .ok o := by
  obtain ⟨lat, hlat⟩ := Option.isSome_iff_exists.mp hlat
  obtain ⟨lon, hlon⟩ := Option.isSome_iff_exists.mp hlon
  rcases hG : env.fetchGraph lat lon cfg.dist_m with _ | g
  · exact ⟨_, processStop_eq_fetchFail env cfg rn r lat lon hlat hlon hG⟩
  · rcases hN : env.nearestNode (assignTimes cfg.walking_speed_mps g) lon lat
      with _ | c
    · exact ⟨_, processStop_eq_nearFail env cfg rn r lat lon g hlat hlon hG hN⟩
    · exact ⟨_, processStop_eq_full env cfg rn r lat lon g c hlat hlon hG hN⟩

/-- A route all of whose rows have convertible coordinates is processed
to completion. -/
theorem processRows_ok_of_parses (env : Env) (cfg : Config) (rn : String)
    (rows : List Row)
    (h : ∀ r ∈ rows, (rowFloat r "lat").isSome = true ∧
      (rowFloat r "lon").isSome = true) :
    ∃ os, processRows env cfg rn rows = .ok os := by
  induction rows with
  | nil => exact ⟨[], rfl⟩
  | cons r rs ih =>
    obtain ⟨o, ho⟩ := processStop_ok_of_parses env cfg rn r
      (h r (by simp)).1 (h r (by simp)).2
    obtain ⟨os, hos⟩ := ih (fun x hx => h x (by simp [hx]))
    exact ⟨o :: os, by simp [processRows, ho, hos]⟩

/-- When every row of every route has convertible coordinates, the
whole generation loop succeeds. -/
theorem runRoutes_ok_of_parses (env : Env) (cfg : Config)
    (routes : List (String × Table))
    (h : ∀ p ∈ routes, ∀ r ∈ p.2.rows, (rowFloat r "lat").isSome = true ∧
      (rowFloat r "lon").isSome = true) :
    ∃ outs, runRoutes env cfg routes = .ok outs := by
  induction routes with
  | nil => exact ⟨[], rfl⟩
  | cons p rest ih =>
    obtain ⟨rn, df⟩ := p
    obtain ⟨os, hos⟩ := processRows_ok_of_parses env cfg rn df.rows
      (h (rn, df) (by simp))
    obtain ⟨outs, houts⟩ := ih (fun q hq => h q (by simp [hq]))
    exact ⟨(rn, os) :: outs, by simp [runRoutes, hos, houts]⟩

/-- C1 counterexample: a per-row failure DOES abort the whole session.
The upload `badLatFile` parses and passes the required-column check
(first conjunct), but its second row's `lat` value is non-numeric, and
the unguarded `float(row['lat'])` at app.py line 148 aborts the run
(second conjunct), contradicting the claim that no per-row failure is
fatal. -/
theorem C1_counterexample :
    (acceptedTable badLatFile).isSome = true ∧
    runSession failEnv defaultConfig [badLatFile] =
      .aborted "ValueError: could not convert row lat to float" := by
  constructor
  · decide
  · decide

/-- C1 (amended): failures at file, stop and polygon granularity are
non-fatal — whenever every row of every accepted route has
float-convertible coordinates and the first accepted route is
non-empty, the session never aborts, whatever the per-stop fetch and
nearest-node failures — but a malformed lat/lon value in an accepted
file (or an empty first accepted route) aborts the whole session. -/
theorem C1_amended_failures_nonfatal (env : Env) (cfg : Config)
    (files : List RawFile)
    (hrows : ∀ p ∈ ingest files, ∀ r ∈ p.2.rows,
      (rowFloat r "lat").isSome = true ∧ (rowFloat r "lon").isSome = true)
    (hfirst : ∀ p rest, ingest files = p :: rest → p.2.rows ≠ []) :
    runSession env cfg files = .noRoutes ∨
      ∃ out, runSession env cfg files = .ok out := by
  rcases hing : ingest files with _ | ⟨⟨rn0, df0⟩, rest⟩
  · left
    simp [runSession, hing]
  · right
    have hne := hfirst (rn0, df0) rest hing
    rcases hdr : df0.rows with _ | ⟨r0, rs0⟩
    · exact absurd hdr hne
    have hmem0 : (rn0, df0) ∈ ingest files := by
      rw [hing]
      exact List.mem_cons_self _ _
    have h0 := hrows _ hmem0 r0 (by rw [hdr]; exact List.mem_cons_self _ _)
    obtain ⟨lat0, hlat0⟩ := Option.isSome_iff_exists.mp h0.1
    obtain ⟨lon0, hlon0⟩ := Option.isSome_iff_exists.mp h0.2
    have hcenter : sessionCenter df0 = .ok (lat0, lon0) := by
      simp [sessionCenter, hdr, hlat0, hlon0]
    obtain ⟨outs, houts⟩ := runRoutes_ok_of_parses env
      { cfg with time_ranges := effectiveTimeRanges cfg }
      ((rn0, df0) :: rest) (by rw [← hing]; exact hrows)
    refine ⟨{ center := (lat0, lon0)
              icons := route_icons (((rn0, df0) :: rest).map (·.1))
              routes := outs
              legendMinT := (listMin (effectiveTimeRanges cfg)).getD 0
              legendMaxT := (listMax (effectiveTimeRanges cfg)).getD 0 }, ?_⟩
    simp [runSession, hing, hcenter, houts]

/-- Witness for the amended C1: a single well-formed upload in the
always-failing environment completes with a map. -/
theorem C1_amended_witness :
    runSession failEnv defaultConfig [goodFile] = .noRoutes ∨
      ∃ out, runSession failEnv defaultConfig [goodFile] = .ok out :=
  C1_amended_failures_nonfatal failEnv defaultConfig [goodFile]
    (by decide)
    (by
      intro p rest h
      rw [show ingest [goodFile] =
        [(("ruta" : String), (⟨["lat", "lon"], [goodRow]⟩ : Table))] from
          by decide] at h
      injection h with hp hrest
      subst hp
      decide)

/-- Witness for C8 at a concrete row with neither optional column. -/
theorem C8_witness :
    ∃ o, processStop failEnv defaultConfig "ruta" goodRow = .ok o ∧
      (rowGet goodRow "name" = none →
        o.stopName = .str ("Stop " ++ toString (goodRow.idx + 1))) ∧
      (∀ v, rowGet goodRow "name" = some v → o.stopName = v) ∧
      (rowGet goodRow "stop_number" = none →
        o.stopNumber = .num ((goodRow.idx : ℚ) + 1)) ∧
      (∀ v, rowGet goodRow "stop_number" = some v → o.stopNumber = v) :=
  C8_name_number_defaults failEnv defaultConfig "ruta" goodRow 1 2
    (by decide) (by decide)

end PUJRoute
